import Mathlib

/-!
Shallow embedding of the NeoHub-Control repository (src/neohub/neohub.py,
src/app.py) and verification of its specification claims.

JSON / Python values are modelled by the inductive `JVal`; Python numbers
(int and float alike) are modelled by `Rat`, since every decimal literal the
code handles is exact in `Rat`.  Python exceptions are modelled by `Except`.
-/

/-- A JSON value as it arrives from the NeoHub API (also used for the
dynamically-typed values Python stores in dataclass fields). Objects are
association lists with distinct keys; lookup takes the first binding. -/
inductive JVal where
  | null : JVal
  | bool (b : Bool) : JVal
  | num (q : Rat) : JVal
  | str (s : String) : JVal
  | arr (xs : List JVal) : JVal
  | obj (fields : List (String × JVal)) : JVal
deriving Repr

mutual

/-- Decidable equality on JSON values (structural). -/
def JVal.decEq : (a b : JVal) → Decidable (a = b)
  | .null, .null => isTrue rfl
  | .null, .bool _ => isFalse nofun
  | .null, .num _ => isFalse nofun
  | .null, .str _ => isFalse nofun
  | .null, .arr _ => isFalse nofun
  | .null, .obj _ => isFalse nofun
  | .bool _, .null => isFalse nofun
  | .bool a, .bool b =>
    match (inferInstance : Decidable (a = b)) with
    | isTrue h => isTrue (h ▸ rfl)
    | isFalse h => isFalse fun e => h (JVal.bool.inj e)
  | .bool _, .num _ => isFalse nofun
  | .bool _, .str _ => isFalse nofun
  | .bool _, .arr _ => isFalse nofun
  | .bool _, .obj _ => isFalse nofun
  | .num _, .null => isFalse nofun
  | .num _, .bool _ => isFalse nofun
  | .num a, .num b =>
    match (inferInstance : Decidable (a = b)) with
    | isTrue h => isTrue (h ▸ rfl)
    | isFalse h => isFalse fun e => h (JVal.num.inj e)
  | .num _, .str _ => isFalse nofun
  | .num _, .arr _ => isFalse nofun
  | .num _, .obj _ => isFalse nofun
  | .str _, .null => isFalse nofun
  | .str _, .bool _ => isFalse nofun
  | .str _, .num _ => isFalse nofun
  | .str a, .str b =>
    match (inferInstance : Decidable (a = b)) with
    | isTrue h => isTrue (h ▸ rfl)
    | isFalse h => isFalse fun e => h (JVal.str.inj e)
  | .str _, .arr _ => isFalse nofun
  | .str _, .obj _ => isFalse nofun
  | .arr _, .null => isFalse nofun
  | .arr _, .bool _ => isFalse nofun
  | .arr _, .num _ => isFalse nofun
  | .arr _, .str _ => isFalse nofun
  | .arr xs, .arr ys =>
    match JVal.decEqList xs ys with
    | isTrue h => isTrue (h ▸ rfl)
    | isFalse h => isFalse fun e => h (JVal.arr.inj e)
  | .arr _, .obj _ => isFalse nofun
  | .obj _, .null => isFalse nofun
  | .obj _, .bool _ => isFalse nofun
  | .obj _, .num _ => isFalse nofun
  | .obj _, .str _ => isFalse nofun
  | .obj _, .arr _ => isFalse nofun
  | .obj xs, .obj ys =>
    match JVal.decEqFields xs ys with
    | isTrue h => isTrue (h ▸ rfl)
    | isFalse h => isFalse fun e => h (JVal.obj.inj e)

/-- Decidable equality on lists of JSON values. -/
def JVal.decEqList : (xs ys : List JVal) → Decidable (xs = ys)
  | [], [] => isTrue rfl
  | [], _ :: _ => isFalse nofun
  | _ :: _, [] => isFalse nofun
  | x :: xs, y :: ys =>
    match JVal.decEq x y, JVal.decEqList xs ys with
    | isTrue h1, isTrue h2 => isTrue (h1 ▸ h2 ▸ rfl)
    | isFalse h1, _ => isFalse fun e => h1 (List.head_eq_of_cons_eq e)
    | _, isFalse h2 => isFalse fun e => h2 (List.tail_eq_of_cons_eq e)

/-- Decidable equality on JSON object field lists. -/
def JVal.decEqFields : (xs ys : List (String × JVal)) → Decidable (xs = ys)
  | [], [] => isTrue rfl
  | [], _ :: _ => isFalse nofun
  | _ :: _, [] => isFalse nofun
  | (k, v) :: xs, (k2, v2) :: ys =>
    match (inferInstance : Decidable (k = k2)), JVal.decEq v v2, JVal.decEqFields xs ys with
    | isTrue h0, isTrue h1, isTrue h2 => isTrue (h0 ▸ h1 ▸ h2 ▸ rfl)
    | isFalse h0, _, _ =>
      isFalse fun e => h0 (congrArg Prod.fst (List.head_eq_of_cons_eq e))
    | _, isFalse h1, _ =>
      isFalse fun e => h1 (congrArg Prod.snd (List.head_eq_of_cons_eq e))
    | _, _, isFalse h2 => isFalse fun e => h2 (List.tail_eq_of_cons_eq e)

end

instance : DecidableEq JVal := JVal.decEq

instance {ε α : Type} [DecidableEq ε] [DecidableEq α] : DecidableEq (Except ε α) :=
  fun x y =>
    match x, y with
    | .ok a, .ok b =>
      match (inferInstance : Decidable (a = b)) with
      | isTrue h => isTrue (h ▸ rfl)
      | isFalse h => isFalse fun e => h (Except.ok.inj e)
    | .error a, .error b =>
      match (inferInstance : Decidable (a = b)) with
      | isTrue h => isTrue (h ▸ rfl)
      | isFalse h => isFalse fun e => h (Except.error.inj e)
    | .ok _, .error _ => isFalse nofun
    | .error _, .ok _ => isFalse nofun

/-- Python truthiness test (`not self.token` in the source): None, False,
zero, the empty string, empty list and empty dict are falsy. -/
def pyFalsy : JVal → Bool
  | .null => true
  | .bool b => !b
  | .num q => q = 0
  | .str s => s = ""
  | .arr xs => xs.isEmpty
  | .obj l => l.isEmpty

/-- Python `==` between a JSON value and an integer literal (as in
the STATUS comparison): numbers compare numerically and booleans compare
as 0/1; all other values are unequal to a number. -/
def pyEqNum (v : JVal) (n : Rat) : Bool :=
  match v with
  | .num q => q = n
  | .bool b => (if b then (1 : Rat) else 0) = n
  | _ => false

/-- Characters the Python `float()` strips from both ends of its argument. -/
def pySpace (c : Char) : Bool :=
  c = ' ' || c = '\t' || c = '\n' || c = '\r' || c = '\x0b' || c = '\x0c'

def isDigitCh (c : Char) : Bool := '0' ≤ c && c ≤ '9'

def natOfDigits (l : List Char) : Nat :=
  l.foldl (fun a c => 10 * a + (c.toNat - 48)) 0

/-- The rational `±m × 10^ex` (sign, decimal mantissa, decimal exponent). -/
def decValue (neg : Bool) (m : Nat) (ex : Int) : Rat :=
  let sgn : Int := if neg then -1 else 1
  if 0 ≤ ex then mkRat (sgn * m * (10 : Int) ^ ex.toNat) 1
  else mkRat (sgn * m) ((10 : Nat) ^ (-ex).toNat)

/-- Exponent part after the `e`/`E`: optional sign, then at least one digit. -/
def parseExpPart (cs : List Char) : Option Int :=
  let (sgn, ds) : Int × List Char :=
    match cs with
    | '+' :: r => (1, r)
    | '-' :: r => (-1, r)
    | r => (1, r)
  if ds ≠ [] ∧ ds.all isDigitCh then some (sgn * (natOfDigits ds : Int)) else none

/-- Model of the Python builtin `float()` on strings, returning `none` where
Python raises `ValueError`. Covers the finite decimal grammar the NeoHub
data uses: optional surrounding whitespace, optional sign, digits with an
optional fraction and an optional decimal exponent. (The non-finite literals
`inf`/`nan` and digit underscores lie outside this rational model.) -/
def pyFloat? (s : String) : Option Rat :=
  let cs := ((s.toList.dropWhile pySpace).reverse.dropWhile pySpace).reverse
  let (neg, cs1) : Bool × List Char :=
    match cs with
    | '+' :: r => (false, r)
    | '-' :: r => (true, r)
    | r => (false, r)
  let ip := cs1.takeWhile isDigitCh
  let rest := cs1.dropWhile isDigitCh
  match rest with
  | [] => if ip = [] then none else some (decValue neg (natOfDigits ip) 0)
  | '.' :: r2 =>
    let fp := r2.takeWhile isDigitCh
    let r3 := r2.dropWhile isDigitCh
    if ip = [] ∧ fp = [] then none
    else
      let m := natOfDigits (ip ++ fp)
      match r3 with
      | [] => some (decValue neg m (-(fp.length : Int)))
      | c :: r4 =>
        if c = 'e' ∨ c = 'E' then
          match parseExpPart r4 with
          | some ex => some (decValue neg m (ex - (fp.length : Int)))
          | none => none
        else none
  | c :: r2 =>
    if (c = 'e' ∨ c = 'E') ∧ ip ≠ [] then
      match parseExpPart r2 with
      | some ex => some (decValue neg (natOfDigits ip) ex)
      | none => none
    else none

/-- The Python substring test `pat in s` for strings. -/
def strContains (s pat : String) : Bool :=
  s.toList.tails.any (fun t => pat.toList = t.take pat.toList.length)

/-- The `LiveInfoDevice` dataclass of `src/neohub/neohub.py`.  The Python
dataclass fields are dynamically typed (the decoder can and does store
values of the "wrong" type in them), so every field is a `JVal`; the
defaults are the dataclass defaults (`False` / `0.0` / `0` / `None`). -/
structure LiveInfoDevice where
  HEAT_ON : JVal := .bool false
  CURRENT_FLOOR_TEMPERATURE : JVal := .num 0
  STANDBY : JVal := .bool false
  MANUAL_OFF : JVal := .bool false
  TIMER_ON : JVal := .bool false
  WINDOW_OPEN : JVal := .bool false
  AVAILABLE_MODES : JVal := .null
  WRITE_COUNT : JVal := .num 0
  FLOOR_LIMIT : JVal := .bool false
  DATE : JVal := .null
  HEAT_MODE : JVal := .bool false
  OFFLINE : JVal := .bool false
  HOLIDAY : JVal := .bool false
  MODELOCK : JVal := .bool false
  DEVICE_ID : JVal := .null
  RECENT_TEMPS : JVal := .null
  COOL_ON : JVal := .bool false
  RELATIVE_HUMIDITY : JVal := .num 0
  HOLD_COOL : JVal := .num 0
  AWAY : JVal := .bool false
  TIMECLOCK : JVal := .bool false
  TEMPORARY_SET_FLAG : JVal := .bool false
  PRG_TIMER : JVal := .bool false
  LOCK : JVal := .bool false
  MODULATION_LEVEL : JVal := .num 0
  HC_MODE : JVal := .null
  SET_TEMP : JVal := .null
  LOW_BATTERY : JVal := .bool false
  COOL_TEMP : JVal := .num 0
  HOLD_ON : JVal := .bool false
  HOLD_OFF : JVal := .bool false
  ZONE_NAME : JVal := .null
  HOLD_TIME : JVal := .null
  COOL_MODE : JVal := .bool false
  HOLD_TEMP : JVal := .num 0
  PREHEAT_ACTIVE : JVal := .bool false
  ACTIVE_PROFILE : JVal := .num 0
  SWITCH_DELAY_LEFT : JVal := .null
  PIN_NUMBER : JVal := .null
  FAN_SPEED : JVal := .null
  ACTUAL_TEMP : JVal := .null
  TIME : JVal := .null
  ACTIVE_LEVEL : JVal := .num 0
  FAN_CONTROL : JVal := .null
  PRG_TEMP : JVal := .num 0
  THERMOSTAT : JVal := .null
deriving Repr, DecidableEq

/-- The field names of `LiveInfoDevice` (the dataclass annotation keys);
`from_dict` keeps exactly the input keys belonging to this list. -/
def liveInfoFieldNames : List String :=
  ["HEAT_ON", "CURRENT_FLOOR_TEMPERATURE", "STANDBY", "MANUAL_OFF",
   "TIMER_ON", "WINDOW_OPEN", "AVAILABLE_MODES", "WRITE_COUNT",
   "FLOOR_LIMIT", "DATE", "HEAT_MODE", "OFFLINE", "HOLIDAY", "MODELOCK",
   "DEVICE_ID", "RECENT_TEMPS", "COOL_ON", "RELATIVE_HUMIDITY",
   "HOLD_COOL", "AWAY", "TIMECLOCK", "TEMPORARY_SET_FLAG", "PRG_TIMER",
   "LOCK", "MODULATION_LEVEL", "HC_MODE", "SET_TEMP", "LOW_BATTERY",
   "COOL_TEMP", "HOLD_ON", "HOLD_OFF", "ZONE_NAME", "HOLD_TIME",
   "COOL_MODE", "HOLD_TEMP", "PREHEAT_ACTIVE", "ACTIVE_PROFILE",
   "SWITCH_DELAY_LEFT", "PIN_NUMBER", "FAN_SPEED", "ACTUAL_TEMP", "TIME",
   "ACTIVE_LEVEL", "FAN_CONTROL", "PRG_TEMP", "THERMOSTAT"]

/-- The five fields `from_dict` converts from string to float. -/
def numericStringFields : List String :=
  ["CURRENT_FLOOR_TEMPERATURE", "HOLD_COOL", "COOL_TEMP", "HOLD_TEMP", "PRG_TEMP"]

/-- Replace the value bound to key `k` (keys are unique, so this models
`d[k] = f(d[k])` on a Python dict). -/
def setKey (l : List (String × JVal)) (k : String) (v : JVal) : List (String × JVal) :=
  l.map fun p => if p.1 = k then (p.1, v) else p

/-- What the numeric-conversion loop of `from_dict` does to the value bound
to key `k`: a string bound to one of the five numeric fields is parsed with
`float()`, defaulting to `0.0` when parsing raises; anything else is
untouched. -/
def convNum (k : String) (v : JVal) : JVal :=
  if numericStringFields.contains k then
    match v with
    | .str s => .num ((pyFloat? s).getD 0)
    | v => v
  else v

/-- The `from_dict` loop converting the five numeric-as-string fields. -/
def convertNumeric (l : List (String × JVal)) : List (String × JVal) :=
  l.map fun p => (p.1, convNum p.1 p.2)

/-- The RECENT_TEMPS normalization of `from_dict`: a bare string becomes a
one-element list; an absent key is inserted as the empty list. -/
def fixRecentTemps (l : List (String × JVal)) : List (String × JVal) :=
  match l.lookup "RECENT_TEMPS" with
  | some (.str s) => setKey l "RECENT_TEMPS" (.arr [.str s])
  | some _ => l
  | none => l ++ [("RECENT_TEMPS", .arr [])]

/-- The AVAILABLE_MODES handling of `from_dict`: only an absent key is
inserted as the empty list (a present value is left untouched). -/
def fixAvailableModes (l : List (String × JVal)) : List (String × JVal) :=
  match l.lookup "AVAILABLE_MODES" with
  | some _ => l
  | none => l ++ [("AVAILABLE_MODES", .arr [])]

/-- Value bound to `k` in the processed known-fields dict, or the
dataclass default when absent. -/
def fld (l : List (String × JVal)) (k : String) (dflt : JVal) : JVal :=
  (l.lookup k).getD dflt

/-- Map `None` to `[]`, anything else unchanged (the test of `__post_init__`). -/
def nullToEmptyList : JVal → JVal
  | .null => .arr []
  | v => v

/-- Model of `LiveInfoDevice.__post_init__`: a `None` in AVAILABLE_MODES or
RECENT_TEMPS is replaced by the empty list. -/
def LiveInfoDevice.postInit (d : LiveInfoDevice) : LiveInfoDevice :=
  { d with
    AVAILABLE_MODES := nullToEmptyList d.AVAILABLE_MODES
    RECENT_TEMPS := nullToEmptyList d.RECENT_TEMPS }

/-- Model of `LiveInfoDevice.from_dict`: filter to known fields, convert the five
numeric-as-string fields, normalize RECENT_TEMPS and (absent-only)
AVAILABLE_MODES, then construct (followed by `__post_init__`).  A non-dict
argument raises (`data.items()` fails), modelled by `.error`. -/
def LiveInfoDevice.from_dict : JVal → Except String LiveInfoDevice
  | .obj data =>
    let kf0 := data.filter fun p => liveInfoFieldNames.contains p.1
    let kf1 := convertNumeric kf0
    let kf2 := fixRecentTemps kf1
    let kf := fixAvailableModes kf2
    .ok (LiveInfoDevice.postInit
      { HEAT_ON := fld kf "HEAT_ON" (.bool false)
        CURRENT_FLOOR_TEMPERATURE := fld kf "CURRENT_FLOOR_TEMPERATURE" (.num 0)
        STANDBY := fld kf "STANDBY" (.bool false)
        MANUAL_OFF := fld kf "MANUAL_OFF" (.bool false)
        TIMER_ON := fld kf "TIMER_ON" (.bool false)
        WINDOW_OPEN := fld kf "WINDOW_OPEN" (.bool false)
        AVAILABLE_MODES := fld kf "AVAILABLE_MODES" .null
        WRITE_COUNT := fld kf "WRITE_COUNT" (.num 0)
        FLOOR_LIMIT := fld kf "FLOOR_LIMIT" (.bool false)
        DATE := fld kf "DATE" .null
        HEAT_MODE := fld kf "HEAT_MODE" (.bool false)
        OFFLINE := fld kf "OFFLINE" (.bool false)
        HOLIDAY := fld kf "HOLIDAY" (.bool false)
        MODELOCK := fld kf "MODELOCK" (.bool false)
        DEVICE_ID := fld kf "DEVICE_ID" .null
        RECENT_TEMPS := fld kf "RECENT_TEMPS" .null
        COOL_ON := fld kf "COOL_ON" (.bool false)
        RELATIVE_HUMIDITY := fld kf "RELATIVE_HUMIDITY" (.num 0)
        HOLD_COOL := fld kf "HOLD_COOL" (.num 0)
        AWAY := fld kf "AWAY" (.bool false)
        TIMECLOCK := fld kf "TIMECLOCK" (.bool false)
        TEMPORARY_SET_FLAG := fld kf "TEMPORARY_SET_FLAG" (.bool false)
        PRG_TIMER := fld kf "PRG_TIMER" (.bool false)
        LOCK := fld kf "LOCK" (.bool false)
        MODULATION_LEVEL := fld kf "MODULATION_LEVEL" (.num 0)
        HC_MODE := fld kf "HC_MODE" .null
        SET_TEMP := fld kf "SET_TEMP" .null
        LOW_BATTERY := fld kf "LOW_BATTERY" (.bool false)
        COOL_TEMP := fld kf "COOL_TEMP" (.num 0)
        HOLD_ON := fld kf "HOLD_ON" (.bool false)
        HOLD_OFF := fld kf "HOLD_OFF" (.bool false)
        ZONE_NAME := fld kf "ZONE_NAME" .null
        HOLD_TIME := fld kf "HOLD_TIME" .null
        COOL_MODE := fld kf "COOL_MODE" (.bool false)
        HOLD_TEMP := fld kf "HOLD_TEMP" (.num 0)
        PREHEAT_ACTIVE := fld kf "PREHEAT_ACTIVE" (.bool false)
        ACTIVE_PROFILE := fld kf "ACTIVE_PROFILE" (.num 0)
        SWITCH_DELAY_LEFT := fld kf "SWITCH_DELAY_LEFT" .null
        PIN_NUMBER := fld kf "PIN_NUMBER" .null
        FAN_SPEED := fld kf "FAN_SPEED" .null
        ACTUAL_TEMP := fld kf "ACTUAL_TEMP" .null
        TIME := fld kf "TIME" .null
        ACTIVE_LEVEL := fld kf "ACTIVE_LEVEL" (.num 0)
        FAN_CONTROL := fld kf "FAN_CONTROL" .null
        PRG_TEMP := fld kf "PRG_TEMP" (.num 0)
        THERMOSTAT := fld kf "THERMOSTAT" .null })
  | _ => .error "AttributeError: object has no attribute items"

/-- The Python membership test `"Socket" in v` as used by `get_device_type`
(src/app.py): substring test on strings, element test on lists, key test on
dicts; on `None`, numbers or booleans Python raises `TypeError`. -/
def pyInSocket : JVal → Except String Bool
  | .str s => .ok (strContains s "Socket")
  | .arr xs => .ok (xs.any fun v => decide (v = JVal.str "Socket"))
  | .obj l => .ok (l.any fun p => decide (p.1 = "Socket"))
  | _ => .error "TypeError: argument of type is not iterable"

/-- The first disjunct of the test in `get_device_type`:
`isinstance(zone_data.ACTUAL_TEMP, str) and zone_data.ACTUAL_TEMP == "255.255"`. -/
def isSentinelTemp : JVal → Bool
  | .str s => s = "255.255"
  | _ => false

/-- Model of `get_device_type` (src/app.py): SOCKET when the actual-temperature field
is the string `"255.255"` (checked first, short-circuiting) or when the zone
name contains `"Socket"`; THERMOSTAT otherwise.  The membership test on a
non-iterable zone name raises, modelled by `.error`. -/
def get_device_type (zone : LiveInfoDevice) : Except String String :=
  if isSentinelTemp zone.ACTUAL_TEMP then
    .ok "SOCKET"
  else
    match pyInSocket zone.ZONE_NAME with
    | .ok true => .ok "SOCKET"
    | .ok false => .ok "THERMOSTAT"
    | .error e => .error e

/-- Model of `is_valid_temperature` (src/app.py): always true for SOCKET; for any
other device type, true iff `float(temp_str)` parses and the value lies in
`[0, 50]` (a parse failure is caught and yields false). -/
def is_valid_temperature (temp_str : String)
    (device_type : String := "THERMOSTAT") : Bool :=
  if device_type = "SOCKET" then true
  else
    match pyFloat? temp_str with
    | some temp => decide (0 ≤ temp ∧ temp ≤ 50)
    | none => false

/-- The `Device` dataclass of `src/neohub/neohub.py` (all fields default
`None`; dynamically typed, hence `JVal`). -/
structure Device where
  address : JVal := .null
  deviceid : JVal := .null
  devicename : JVal := .null
  hub_type : JVal := .null
  online : JVal := .null
  type : JVal := .null
  version : JVal := .null
  share_name : JVal := .null
  share_id : JVal := .null
  tempformat : JVal := .null
  timezone : JVal := .null
  away : JVal := .null
  holiday : JVal := .null
  holidayend : JVal := .null
deriving Repr, DecidableEq

/-- The field names of `Device` (the dataclass annotation keys). -/
def deviceFieldNames : List String :=
  ["address", "deviceid", "devicename", "hub_type", "online", "type",
   "version", "share_name", "share_id", "tempformat", "timezone", "away",
   "holiday", "holidayend"]

/-- Model of `Device.from_dict`: keep only known fields, construct with the dataclass
defaults for the rest; a non-dict argument raises (`data.items()`). -/
def Device.from_dict : JVal → Except String Device
  | .obj data =>
    let kf := data.filter fun p => deviceFieldNames.contains p.1
    .ok
      { address := fld kf "address" .null
        deviceid := fld kf "deviceid" .null
        devicename := fld kf "devicename" .null
        hub_type := fld kf "hub_type" .null
        online := fld kf "online" .null
        type := fld kf "type" .null
        version := fld kf "version" .null
        share_name := fld kf "share_name" .null
        share_id := fld kf "share_id" .null
        tempformat := fld kf "tempformat" .null
        timezone := fld kf "timezone" .null
        away := fld kf "away" .null
        holiday := fld kf "holiday" .null
        holidayend := fld kf "holidayend" .null }
  | _ => .error "AttributeError: object has no attribute items"

def DEFAULT_URL : String := "https://neohub.co.uk/"
def USER_LOGIN_ENDPOINT : String := "hm_user_login"
def CACHE_VALUE_ENDPOINT : String := "hm_cache_value"
def DEFAULT_CACHE_VALUE_REQUEST : String :=
  "engineers,comfort,profile0,timeclock0,system,device_list,timeclock,live_info"

/-- The `NeoHub` client state (src/neohub/neohub.py): credentials, base URL
and the session token, `None` until a successful login stores the returned
TOKEN value (dynamically typed, hence `JVal`). -/
structure NeoHub where
  username : String
  password : String
  url : String := DEFAULT_URL
  token : JVal := .null
deriving Repr, DecidableEq

/-- The exceptions the client raises, one constructor per `raise` site (each
carries exactly the data its f-string interpolates) plus the Python
`KeyError`/`TypeError`/`AttributeError` a malformed response provokes. -/
inductive HubError where
  | notLoggedIn : HubError
  | loginFailed (status : JVal) : HubError
  | getDataFailed (status : JVal) : HubError
  | setTempFailed (errMsg : JVal) : HubError
  | setModeFailed (errMsg : JVal) : HubError
  | setAwayFailed (errMsg : JVal) : HubError
  | getHistoryFailed (errMsg : JVal) : HubError
  | keyErr (key : String) : HubError
  | typeErr (msg : String) : HubError
  | attrErr (msg : String) : HubError
deriving Repr, DecidableEq

/-- The network, abstracted: `_form_post_request` maps an endpoint and form
parameters to the parsed JSON body of the reply. -/
def Transport : Type := String → List (String × JVal) → JVal

/-- Python `v[k]`: value at a key of a dict; `KeyError` when the key is
absent, `TypeError` when `v` is not subscriptable by a string. -/
def getItem (v : JVal) (k : String) : Except HubError JVal :=
  match v with
  | .obj l =>
    match l.lookup k with
    | some x => .ok x
    | none => .error (.keyErr k)
  | _ => .error (.typeErr "value is not subscriptable")

/-- Python `v.get(k, dflt)` on a dict (only ever reached with `v` a dict,
after a successful STATUS subscript). -/
def pyDictGet (v : JVal) (k : String) (dflt : JVal) : JVal :=
  match v with
  | .obj l => (l.lookup k).getD dflt
  | _ => dflt

/-- Python `k in v` for the response dicts of `get_data` (key test on dicts,
substring test on strings, element test on lists; `TypeError` otherwise). -/
def pyIn (k : String) : JVal → Except HubError Bool
  | .obj l => .ok (l.any fun p => decide (p.1 = k))
  | .str s => .ok (strContains s k)
  | .arr xs => .ok (xs.any fun x => decide (x = JVal.str k))
  | _ => .error (.typeErr "argument of type is not iterable")

/-- The login list comprehension
over the devices entry of the response: the first
record whose decode raises aborts the whole comprehension. -/
def decodeLoginDevices : List JVal → Except HubError (List Device)
  | [] => .ok []
  | d :: rest =>
    match Device.from_dict d with
    | .ok dev => (decodeLoginDevices rest).map (dev :: ·)
    | .error e => .error (.attrErr e)

/-- Model of `NeoHub.login`: POST the credentials; a body STATUS other than 1 raises
before the token is touched; on STATUS 1 the TOKEN value is stored and the
device list is decoded.  State-passing (`NeoHub × _`) keeps the Python
mutation of the Python object visible even when a later step raises. -/
def NeoHub.login (hub : NeoHub) (send : Transport) :
    NeoHub × Except HubError (List Device) :=
  let params := [("USERNAME", JVal.str hub.username),
                 ("PASSWORD", JVal.str hub.password)]
  let resp := send USER_LOGIN_ENDPOINT params
  match getItem resp "STATUS" with
  | .error e => (hub, .error e)
  | .ok status =>
    if ¬ pyEqNum status 1 then (hub, .error (.loginFailed status))
    else
      match getItem resp "TOKEN" with
      | .error e => (hub, .error e)
      | .ok t =>
        let hub2 := { hub with token := t }
        match getItem resp "devices" with
        | .error e => (hub2, .error e)
        | .ok (.arr ds) =>
          match decodeLoginDevices ds with
          | .ok devs => (hub2, .ok devs)
          | .error e => (hub2, .error e)
        | .ok _ => (hub2, .error (.typeErr "devices value is not iterable"))

/-- What `get_data` hands back: the parsed response body plus, when the
response carried `CACHE_VALUE.live_info`, the in-place replacement of its
`devices` entry by the decoded records, together with the warnings printed
for records whose decode failed. -/
structure GetDataResult where
  raw : JVal
  decodedDevices : Option (List LiveInfoDevice)
  warnings : List String
deriving Repr, DecidableEq

/-- The decode loop of `get_data`: each record is decoded under
`try/except`; a failure appends a printed warning instead of aborting, and
the successfully decoded records are kept in order. -/
def decodeLiveInfoDevices : List JVal → List LiveInfoDevice × List String
  | [] => ([], [])
  | d :: rest =>
    let (devs, ws) := decodeLiveInfoDevices rest
    match LiveInfoDevice.from_dict d with
    | .ok dev => (dev :: devs, ws)
    | .error e => (devs, ("Warning: Failed to parse device data: " ++ e) :: ws)

/-- Model of `NeoHub.get_data`: refuse without a (truthy) token; POST the cache-value
request; accept body STATUS 1 or 201 and raise on anything else; when the
body has `CACHE_VALUE` with a `live_info` entry, decode its `devices`
per-record (failures become warnings) and substitute the decoded list. -/
def NeoHub.get_data (hub : NeoHub) (device_id : String) (send : Transport) :
    Except HubError GetDataResult :=
  if pyFalsy hub.token then .error .notLoggedIn
  else
    let params := [("cache_value", JVal.str DEFAULT_CACHE_VALUE_REQUEST),
                   ("device_id", JVal.str device_id),
                   ("token", hub.token)]
    let resp := send CACHE_VALUE_ENDPOINT params
    match getItem resp "STATUS" with
    | .error e => .error e
    | .ok status =>
      if ¬ (pyEqNum status 1 ∨ pyEqNum status 201) then
        .error (.getDataFailed status)
      else
        match pyIn "CACHE_VALUE" resp with
        | .error e => .error e
        | .ok false => .ok ⟨resp, none, []⟩
        | .ok true =>
          match getItem resp "CACHE_VALUE" with
          | .error e => .error e
          | .ok cv =>
            match pyIn "live_info" cv with
            | .error e => .error e
            | .ok false => .ok ⟨resp, none, []⟩
            | .ok true =>
              match getItem cv "live_info" with
              | .error e => .error e
              | .ok li =>
                match li with
                | .obj l =>
                  match (l.lookup "devices").getD (.arr []) with
                  | .arr ds =>
                    let (devs, ws) := decodeLiveInfoDevices ds
                    .ok ⟨resp, some devs, ws⟩
                  | _ => .error (.typeErr "devices value is not iterable")
                | _ => .error (.attrErr "object has no attribute get")

/-- Model of `NeoHub.set_temperature`: refuse without a token, POST the zone and the
temperature (Python sends `str(temperature)`; the rendering is immaterial to
the abstract transport, so the number itself is sent), succeed only on body
STATUS 1; otherwise raise with the ERROR value of the body, or the fixed text
`"Unknown error"` when ERROR is absent. -/
def NeoHub.set_temperature (hub : NeoHub) (device_id zone_name : String)
    (temperature : Rat) (send : Transport) : Except HubError JVal :=
  if pyFalsy hub.token then .error .notLoggedIn
  else
    let params := [("device_id", JVal.str device_id),
                   ("token", hub.token),
                   ("zone", JVal.str zone_name),
                   ("temperature", JVal.num temperature)]
    let resp := send "hm_set_temp" params
    match getItem resp "STATUS" with
    | .error e => .error e
    | .ok status =>
      if ¬ pyEqNum status 1 then
        .error (.setTempFailed (pyDictGet resp "ERROR" (.str "Unknown error")))
      else .ok resp

/-- Model of `NeoHub.set_mode`: as `set_temperature`, with the upper-cased mode. -/
def NeoHub.set_mode (hub : NeoHub) (device_id zone_name mode : String)
    (send : Transport) : Except HubError JVal :=
  if pyFalsy hub.token then .error .notLoggedIn
  else
    let params := [("device_id", JVal.str device_id),
                   ("token", hub.token),
                   ("zone", JVal.str zone_name),
                   ("mode", JVal.str mode.toUpper)]
    let resp := send "hm_set_mode" params
    match getItem resp "STATUS" with
    | .error e => .error e
    | .ok status =>
      if ¬ pyEqNum status 1 then
        .error (.setModeFailed (pyDictGet resp "ERROR" (.str "Unknown error")))
      else .ok resp

/-- Model of `NeoHub.set_away_mode`: as `set_temperature`, with away sent as
`"1"`/`"0"`. -/
def NeoHub.set_away_mode (hub : NeoHub) (device_id : String) (enabled : Bool)
    (send : Transport) : Except HubError JVal :=
  if pyFalsy hub.token then .error .notLoggedIn
  else
    let params := [("device_id", JVal.str device_id),
                   ("token", hub.token),
                   ("away", JVal.str (if enabled then "1" else "0"))]
    let resp := send "hm_set_away" params
    match getItem resp "STATUS" with
    | .error e => .error e
    | .ok status =>
      if ¬ pyEqNum status 1 then
        .error (.setAwayFailed (pyDictGet resp "ERROR" (.str "Unknown error")))
      else .ok resp

/-- Model of `NeoHub.get_history`: refuse without a token; succeed only on body
STATUS 1, raising with the ERROR value of the body otherwise. -/
def NeoHub.get_history (hub : NeoHub) (device_id zone_name : String)
    (send : Transport) : Except HubError JVal :=
  if pyFalsy hub.token then .error .notLoggedIn
  else
    let params := [("device_id", JVal.str device_id),
                   ("token", hub.token),
                   ("zone", JVal.str zone_name)]
    let resp := send "hm_get_history" params
    match getItem resp "STATUS" with
    | .error e => .error e
    | .ok status =>
      if ¬ pyEqNum status 1 then
        .error (.getHistoryFailed (pyDictGet resp "ERROR" (.str "Unknown error")))
      else .ok resp

/-- View of the five numeric-as-string fields of a decoded zone, by name. -/
def numField (d : LiveInfoDevice) : String → JVal
  | "CURRENT_FLOOR_TEMPERATURE" => d.CURRENT_FLOOR_TEMPERATURE
  | "HOLD_COOL" => d.HOLD_COOL
  | "COOL_TEMP" => d.COOL_TEMP
  | "HOLD_TEMP" => d.HOLD_TEMP
  | "PRG_TEMP" => d.PRG_TEMP
  | _ => .null

lemma lookup_filter_keep (l : List (String × JVal)) (f : String)
    (p : String → Bool) (hf : p f = true) :
    (l.filter fun q => p q.1).lookup f = l.lookup f := by
  induction l with
  | nil => rfl
  | cons q rest ih =>
    by_cases h : f = q.1
    · subst h
      simp [List.filter_cons, hf, List.lookup]
    · rcases hp : p q.1 with _ | _ <;>
        simp [List.filter_cons, hp, List.lookup, ih,
          show (f == q.1) = false by simpa using h]

lemma lookup_convertNumeric (l : List (String × JVal)) (f : String) :
    (convertNumeric l).lookup f = (l.lookup f).map (convNum f) := by
  induction l with
  | nil => rfl
  | cons q rest ih =>
    by_cases h : f = q.1
    · subst h
      simp [convertNumeric, List.lookup]
    · simp [convertNumeric, List.lookup,
        show (f == q.1) = false by simpa using h] at ih ⊢
      exact ih

lemma lookup_setKey_self (l : List (String × JVal)) (k : String) (v : JVal) :
    (setKey l k v).lookup k = (l.lookup k).map fun _ => v := by
  induction l with
  | nil => rfl
  | cons q rest ih =>
    obtain ⟨a, b⟩ := q
    by_cases h : a = k
    · subst h
      simp [setKey, List.lookup_cons]
    · rw [show setKey ((a, b) :: rest) k v = (a, b) :: setKey rest k v by
        simp [setKey, h]]
      simp [List.lookup_cons, beq_false_of_ne (Ne.symm h), ih]

lemma lookup_setKey_ne (l : List (String × JVal)) (k f : String) (v : JVal)
    (h : f ≠ k) : (setKey l k v).lookup f = l.lookup f := by
  induction l with
  | nil => rfl
  | cons q rest ih =>
    obtain ⟨a, b⟩ := q
    by_cases hak : a = k
    · subst hak
      rw [show setKey ((a, b) :: rest) a v = (a, v) :: setKey rest a v by
        simp [setKey]]
      simp [List.lookup_cons, beq_false_of_ne h, ih]
    · rw [show setKey ((a, b) :: rest) k v = (a, b) :: setKey rest k v by
        simp [setKey, hak]]
      by_cases hfa : f = a
      · subst hfa
        simp [List.lookup_cons]
      · simp [List.lookup_cons, beq_false_of_ne hfa, ih]

lemma lookup_append_single_ne (l : List (String × JVal)) (k f : String)
    (v : JVal) (h : f ≠ k) : (l ++ [(k, v)]).lookup f = l.lookup f := by
  rw [List.lookup_append]
  simp [List.lookup_cons, beq_false_of_ne h]

lemma lookup_append_single_self (l : List (String × JVal)) (k : String)
    (v : JVal) (h : l.lookup k = none) : (l ++ [(k, v)]).lookup k = some v := by
  rw [List.lookup_append, h]
  simp

lemma lookup_fixRecentTemps_ne (l : List (String × JVal)) (f : String)
    (h : f ≠ "RECENT_TEMPS") : (fixRecentTemps l).lookup f = l.lookup f := by
  unfold fixRecentTemps
  rcases hl : l.lookup "RECENT_TEMPS" with _ | v
  · simp [lookup_append_single_ne _ _ _ _ h]
  · cases v <;> simp [lookup_setKey_ne _ _ _ _ h]

lemma lookup_fixAvailableModes_ne (l : List (String × JVal)) (f : String)
    (h : f ≠ "AVAILABLE_MODES") :
    (fixAvailableModes l).lookup f = l.lookup f := by
  unfold fixAvailableModes
  rcases hl : l.lookup "AVAILABLE_MODES" with _ | v
  · simp [lookup_append_single_ne _ _ _ _ h]
  · simp

lemma numField_from_dict (l : List (String × JVal)) (f : String)
    (hf : f ∈ numericStringFields) :
    ∃ d, LiveInfoDevice.from_dict (.obj l) = .ok d ∧
      numField d f = ((l.lookup f).map (convNum f)).getD (.num 0) := by
  refine ⟨_, rfl, ?_⟩
  have hf5 : f = "CURRENT_FLOOR_TEMPERATURE" ∨ f = "HOLD_COOL" ∨
      f = "COOL_TEMP" ∨ f = "HOLD_TEMP" ∨ f = "PRG_TEMP" := by
    simpa [numericStringFields] using hf
  rcases hf5 with rfl | rfl | rfl | rfl | rfl <;>
    simp only [numField, LiveInfoDevice.postInit, fld] <;>
    rw [lookup_fixAvailableModes_ne _ _ (by decide),
      lookup_fixRecentTemps_ne _ _ (by decide), lookup_convertNumeric,
      lookup_filter_keep l _ (fun k => liveInfoFieldNames.contains k) (by decide)]

/-- C2: for every raw zone record, `from_dict` succeeds, and on each of the
five numeric-as-string fields a string value that `float()` parses decodes
to that number, a string value that fails to parse decodes to `0.0`, and an
absent field decodes to `0.0`. -/
theorem spec_C2_numeric_string_fields (l : List (String × JVal)) (f : String)
    (hf : f ∈ numericStringFields) :
    ∃ d, LiveInfoDevice.from_dict (.obj l) = .ok d ∧
      (∀ s q, l.lookup f = some (.str s) → pyFloat? s = some q →
        numField d f = .num q) ∧
      (∀ s, l.lookup f = some (.str s) → pyFloat? s = none →
        numField d f = .num 0) ∧
      (l.lookup f = none → numField d f = .num 0) := by
  have hfc : numericStringFields.contains f = true := by
    have hf5 : f = "CURRENT_FLOOR_TEMPERATURE" ∨ f = "HOLD_COOL" ∨
        f = "COOL_TEMP" ∨ f = "HOLD_TEMP" ∨ f = "PRG_TEMP" := by
      simpa [numericStringFields] using hf
    rcases hf5 with rfl | rfl | rfl | rfl | rfl <;> decide
  obtain ⟨d, hok, hchar⟩ := numField_from_dict l f hf
  refine ⟨d, hok, fun s q hs hq => ?_, fun s hs hq => ?_, fun hs => ?_⟩
  · rw [hchar, hs]
    simp [convNum, hfc, hq, hf]
  · rw [hchar, hs]
    simp [convNum, hfc, hq, hf]
  · rw [hchar, hs]
    rfl

/-- Witness for C2 at `HOLD_TEMP`: a parsable string decodes to its value,
an unparsable one and an absent field decode to `0.0`. -/
theorem spec_C2_witness :
    (∃ d, LiveInfoDevice.from_dict (.obj [("HOLD_TEMP", .str "21.5")]) = .ok d ∧
      d.HOLD_TEMP = .num (mkRat 43 2)) ∧
    (∃ d, LiveInfoDevice.from_dict (.obj [("HOLD_TEMP", .str "oops")]) = .ok d ∧
      d.HOLD_TEMP = .num 0) ∧
    (∃ d, LiveInfoDevice.from_dict (.obj []) = .ok d ∧ d.HOLD_TEMP = .num 0) := by
  refine ⟨?_, ?_, ?_⟩
  · obtain ⟨d, hok, hsome, _, _⟩ :=
      spec_C2_numeric_string_fields [("HOLD_TEMP", JVal.str "21.5")]
        "HOLD_TEMP" (by decide)
    exact ⟨d, hok, hsome "21.5" (mkRat 43 2) (by decide) (by decide)⟩
  · obtain ⟨d, hok, _, hnone, _⟩ :=
      spec_C2_numeric_string_fields [("HOLD_TEMP", JVal.str "oops")]
        "HOLD_TEMP" (by decide)
    exact ⟨d, hok, hnone "oops" (by decide) (by decide)⟩
  · obtain ⟨d, hok, _, _, habs⟩ :=
      spec_C2_numeric_string_fields [] "HOLD_TEMP" (by decide)
    exact ⟨d, hok, habs (by decide)⟩

/-- C1: the decoder normalizes a bare-string RECENT_TEMPS to a one-element
list, but a bare-string AVAILABLE_MODES is passed through as the string
itself — not wrapped in a one-element list as claimed (and as the source
comment "Ensure AVAILABLE_MODES is a list" intends). -/
theorem spec_C1_bare_string_modes_not_wrapped :
    (LiveInfoDevice.from_dict (.obj [("AVAILABLE_MODES", .str "HEAT")])).map
        (·.AVAILABLE_MODES) = .ok (.str "HEAT") ∧
    JVal.str "HEAT" ≠ .arr [.str "HEAT"] ∧
    (LiveInfoDevice.from_dict (.obj [("RECENT_TEMPS", .str "20.6")])).map
        (·.RECENT_TEMPS) = .ok (.arr [.str "20.6"]) := by
  decide

/-- C3: `is_valid_temperature` is constantly true for SOCKET; for THERMOSTAT
it is true exactly when the text parses as a float in `[0, 50]`; on
`"255.255"` it is true for SOCKET and false for THERMOSTAT.  (The function
is a pure function of its arguments by construction.) -/
theorem spec_C3_is_valid_temperature :
    (∀ text, is_valid_temperature text "SOCKET" = true) ∧
    (∀ text, is_valid_temperature text "THERMOSTAT" = true ↔
      ∃ q, pyFloat? text = some q ∧ 0 ≤ q ∧ q ≤ 50) ∧
    is_valid_temperature "255.255" "SOCKET" = true ∧
    is_valid_temperature "255.255" "THERMOSTAT" = false := by
  refine ⟨fun text => by simp [is_valid_temperature], fun text => ?_,
    by decide, by decide⟩
  unfold is_valid_temperature
  simp only [if_neg (by decide : ¬ ("THERMOSTAT" = "SOCKET"))]
  cases h : pyFloat? text with
  | none => simp
  | some q => simp [decide_eq_true_iff]

/-- Witness for C3 at concrete texts. -/
theorem spec_C3_witness :
    is_valid_temperature "21.5" "THERMOSTAT" = true ∧
    is_valid_temperature "abc" "THERMOSTAT" = false := by
  constructor
  · exact (spec_C3_is_valid_temperature.2.1 "21.5").mpr
      ⟨mkRat 43 2, by decide, by decide, by decide⟩
  · decide

/-- Counterexample to the totality part of C4: a decoded zone whose name field is
absent (so `ZONE_NAME` is `None` after decode) and whose actual temperature
is not the sentinel makes `get_device_type` raise a `TypeError`
(`"Socket" in None`), instead of returning a classification. -/
theorem spec_C4_counterexample :
    (LiveInfoDevice.from_dict (.obj [("ACTUAL_TEMP", .str "21.5")])).map
      get_device_type =
      .ok (.error "TypeError: argument of type is not iterable") := by
  decide

/-- C4 (amended): for every zone whose name is a string, `get_device_type`
returns SOCKET exactly when the actual-temperature field is the string
`"255.255"` or the name contains `"Socket"`, and THERMOSTAT otherwise; a
zone with the sentinel actual temperature is SOCKET whatever its name field
holds (short-circuit).  Totality fails only for non-string names. -/
theorem spec_C4_classify :
    (∀ (zone : LiveInfoDevice) (name : String), zone.ZONE_NAME = .str name →
      get_device_type zone =
        .ok (if isSentinelTemp zone.ACTUAL_TEMP || strContains name "Socket"
          then "SOCKET" else "THERMOSTAT")) ∧
    (∀ zone : LiveInfoDevice, isSentinelTemp zone.ACTUAL_TEMP = true →
      get_device_type zone = .ok "SOCKET") := by
  constructor
  · intro zone name h
    unfold get_device_type
    cases hs : isSentinelTemp zone.ACTUAL_TEMP
    · rw [h]
      cases hc : strContains name "Socket" <;> simp [pyInSocket, hc]
    · simp
  · intro zone hs
    unfold get_device_type
    simp [hs]

/-- Witness for C4 at concrete zones (the examples given in the spec). -/
theorem spec_C4_witness :
    get_device_type
        { ZONE_NAME := JVal.str "Living Room", ACTUAL_TEMP := JVal.str "21.5" } =
      .ok "THERMOSTAT" ∧
    get_device_type { ZONE_NAME := JVal.str "Kitchen Socket" } = .ok "SOCKET" ∧
    get_device_type { ACTUAL_TEMP := JVal.str "255.255" } = .ok "SOCKET" := by
  refine ⟨?_, ?_, ?_⟩
  · have h := spec_C4_classify.1
      { ZONE_NAME := JVal.str "Living Room", ACTUAL_TEMP := JVal.str "21.5" }
      "Living Room" rfl
    rw [h]
    decide
  · have h := spec_C4_classify.1 { ZONE_NAME := JVal.str "Kitchen Socket" }
      "Kitchen Socket" rfl
    rw [h]
    decide
  · exact spec_C4_classify.2 _ (by decide)

/-- C10: the sentinel test applies only to string values: a zone holding the
number `255.255` (the rational `51051/200`) in its actual-temperature field,
with a string name not containing `"Socket"`, classifies as THERMOSTAT. -/
theorem spec_C10_numeric_sentinel_is_thermostat (zone : LiveInfoDevice)
    (name : String) (h1 : zone.ACTUAL_TEMP = .num (mkRat 51051 200))
    (h2 : zone.ZONE_NAME = .str name)
    (h3 : strContains name "Socket" = false) :
    get_device_type zone = .ok "THERMOSTAT" := by
  unfold get_device_type
  rw [h1, h2]
  simp [isSentinelTemp, pyInSocket, h3]

/-- Witness for C10: the numeric sentinel value on a zone named
"Living Room". -/
theorem spec_C10_witness :
    get_device_type
        { ACTUAL_TEMP := JVal.num (mkRat 51051 200),
          ZONE_NAME := JVal.str "Living Room" } = .ok "THERMOSTAT" :=
  spec_C10_numeric_sentinel_is_thermostat _ "Living Room" rfl rfl (by decide)

/-- C6: with a falsy token (None or the empty string), every authenticated
operation fails with the not-logged-in error, and — being the same for every
transport — does so without consulting the network. -/
theorem spec_C6_requires_token (hub : NeoHub) (h : pyFalsy hub.token = true) :
    ∀ (send : Transport) (device_id zone_name mode : String) (t : Rat)
      (enabled : Bool),
      hub.get_data device_id send = .error .notLoggedIn ∧
      hub.set_temperature device_id zone_name t send = .error .notLoggedIn ∧
      hub.set_mode device_id zone_name mode send = .error .notLoggedIn ∧
      hub.set_away_mode device_id enabled send = .error .notLoggedIn ∧
      hub.get_history device_id zone_name send = .error .notLoggedIn := by
  intro send did zn mode t en
  refine ⟨?_, ?_, ?_, ?_, ?_⟩ <;>
    simp [NeoHub.get_data, NeoHub.set_temperature, NeoHub.set_mode,
      NeoHub.set_away_mode, NeoHub.get_history, h]

/-- Witness for C6: a client holding the empty-string token is refused. -/
theorem spec_C6_witness :
    pyFalsy (JVal.str "") = true ∧
    NeoHub.get_data ⟨"u", "p", DEFAULT_URL, .str ""⟩ "d1"
        (fun _ _ => .obj [("STATUS", .num 1)]) = .error .notLoggedIn ∧
    NeoHub.set_temperature ⟨"u", "p", DEFAULT_URL, .str ""⟩ "d1" "Lounge" 21
        (fun _ _ => .obj [("STATUS", .num 1)]) = .error .notLoggedIn := by
  have h := spec_C6_requires_token ⟨"u", "p", DEFAULT_URL, .str ""⟩ (by decide)
    (fun _ _ => .obj [("STATUS", .num 1)]) "d1" "Lounge" "heat" 21 true
  exact ⟨by decide, h.1, h.2.1⟩

lemma getItem_error_cases (v : JVal) (k : String) (e : HubError)
    (h : getItem v k = .error e) :
    (∃ k2, e = .keyErr k2) ∨ e = .typeErr "value is not subscriptable" := by
  unfold getItem at h
  cases v <;> simp_all
  case obj l =>
    cases hl : l.lookup k <;> simp_all
    exact Or.inl ⟨k, h.symm⟩

lemma pyIn_error_cases (k : String) (v : JVal) (e : HubError)
    (h : pyIn k v = .error e) :
    e = .typeErr "argument of type is not iterable" := by
  cases v <;> simp_all [pyIn]

lemma any_key_of_lookup (l : List (String × JVal)) (k : String) (v : JVal)
    (h : l.lookup k = some v) : (l.any fun p => decide (p.1 = k)) = true := by
  induction l with
  | nil => simp [List.lookup] at h
  | cons q rest ih =>
    obtain ⟨a, b⟩ := q
    by_cases hka : k = a
    · subst hka
      simp
    · rw [List.lookup_cons] at h
      simp only [beq_false_of_ne hka] at h
      simp [ih h]

lemma get_data_error_of_truthy (hub : NeoHub) (did : String) (send : Transport)
    (htok : pyFalsy hub.token = false) (e : HubError)
    (h : hub.get_data did send = .error e) :
    (∃ k, e = .keyErr k) ∨ (∃ m, e = .typeErr m) ∨
    e = .attrErr "object has no attribute get" ∨
    (∃ s, e = .getDataFailed s ∧
      getItem (send CACHE_VALUE_ENDPOINT
          [("cache_value", .str DEFAULT_CACHE_VALUE_REQUEST),
           ("device_id", .str did), ("token", hub.token)]) "STATUS" = .ok s ∧
      ¬ (pyEqNum s 1 = true ∨ pyEqNum s 201 = true)) := by
  unfold NeoHub.get_data at h
  simp only [htok, Bool.false_eq_true, if_false] at h
  split at h
  case h_1 e0 heq =>
    cases h
    rcases getItem_error_cases _ _ _ heq with ⟨k2, rfl⟩ | rfl
    · exact Or.inl ⟨k2, rfl⟩
    · exact Or.inr (Or.inl ⟨_, rfl⟩)
  case h_2 status heq =>
    split at h
    · cases h
      exact Or.inr (Or.inr (Or.inr ⟨status, rfl, heq, by assumption⟩))
    · split at h
      case h_1 e0 hin =>
        cases h
        exact Or.inr (Or.inl ⟨_, pyIn_error_cases _ _ _ hin⟩)
      case h_2 hin => cases h
      case h_3 hin =>
        split at h
        case h_1 e0 hcv =>
          cases h
          rcases getItem_error_cases _ _ _ hcv with ⟨k2, rfl⟩ | rfl
          · exact Or.inl ⟨k2, rfl⟩
          · exact Or.inr (Or.inl ⟨_, rfl⟩)
        case h_2 cv hcv =>
          split at h
          case h_1 e0 hin2 =>
            cases h
            exact Or.inr (Or.inl ⟨_, pyIn_error_cases _ _ _ hin2⟩)
          case h_2 hin2 => cases h
          case h_3 hin2 =>
            split at h
            case h_1 e0 hli =>
              cases h
              rcases getItem_error_cases _ _ _ hli with ⟨k2, rfl⟩ | rfl
              · exact Or.inl ⟨k2, rfl⟩
              · exact Or.inr (Or.inl ⟨_, rfl⟩)
            case h_2 li hli =>
              split at h
              case h_1 l2 =>
                split at h
                · cases h
                · cases h
                  exact Or.inr (Or.inl ⟨_, rfl⟩)
              case h_2 =>
                cases h
                exact Or.inr (Or.inr (Or.inl rfl))

lemma get_data_ne_auth (hub : NeoHub) (did : String) (send : Transport)
    (htok : pyFalsy hub.token = false) :
    hub.get_data did send ≠ .error .notLoggedIn := by
  intro h
  rcases get_data_error_of_truthy hub did send htok _ h with
    ⟨k, hk⟩ | ⟨m, hm⟩ | ha | ⟨s, hs, _⟩ <;> simp_all

/-- Counterexample to C5: a STATUS-1 body whose TOKEN is the empty string is
accepted — the empty token is stored and the device list returned — yet the
authenticated-operation precondition does not hold afterwards: `get_data`
still fails with the not-logged-in error, because the stored token is falsy. -/
theorem spec_C5_counterexample :
    NeoHub.login ⟨"u", "p", DEFAULT_URL, .null⟩
        (fun _ _ => .obj [("STATUS", .num 1), ("TOKEN", .str ""),
          ("devices", .arr [])]) =
      (⟨"u", "p", DEFAULT_URL, .str ""⟩, .ok []) ∧
    NeoHub.get_data ⟨"u", "p", DEFAULT_URL, .str ""⟩ "d1"
        (fun _ _ => .obj [("STATUS", .num 1), ("TOKEN", .str ""),
          ("devices", .arr [])]) = .error .notLoggedIn := by
  decide

/-- C5 (amended): a non-success body STATUS fails with the login error
carrying the server-reported status and leaves the client unchanged; a
STATUS-1 body stores the returned TOKEN and returns the decoded device list
(empty for `devices: []`), after which the authenticated-operation
precondition holds provided the returned token is truthy (in particular,
nonempty). -/
theorem spec_C5_login (hub : NeoHub) (send : Transport)
    (l : List (String × JVal)) (status : JVal)
    (hresp : send USER_LOGIN_ENDPOINT
        [("USERNAME", .str hub.username), ("PASSWORD", .str hub.password)] =
      .obj l)
    (hstatus : l.lookup "STATUS" = some status) :
    (pyEqNum status 1 = false →
      hub.login send = (hub, .error (.loginFailed status))) ∧
    (∀ t ds devs, pyEqNum status 1 = true →
      l.lookup "TOKEN" = some t →
      l.lookup "devices" = some (.arr ds) →
      decodeLoginDevices ds = .ok devs →
      hub.login send = ({ hub with token := t }, .ok devs) ∧
      (ds = [] → devs = []) ∧
      (pyFalsy t = false → ∀ (send2 : Transport) (did : String),
        NeoHub.get_data { hub with token := t } did send2 ≠
          .error .notLoggedIn)) := by
  constructor
  · intro hfail
    unfold NeoHub.login
    simp only [hresp]
    simp [getItem, hstatus, hfail]
  · intro t ds devs hsucc hTOK hdevs hdecode
    refine ⟨?_, ?_, ?_⟩
    · unfold NeoHub.login
      simp only [hresp]
      simp [getItem, hstatus, hsucc, hTOK, hdevs, hdecode]
    · intro hnil
      subst hnil
      simpa [decodeLoginDevices] using hdecode.symm
    · intro htruthy send2 did
      exact get_data_ne_auth _ _ _ (by simpa using htruthy)

/-- Witness for C5: a successful login with a nonempty token, and a failed
login with STATUS 0 that leaves the client unchanged. -/
theorem spec_C5_witness :
    NeoHub.login ⟨"u", "p", DEFAULT_URL, .null⟩
        (fun _ _ => .obj [("STATUS", .num 1), ("TOKEN", .str "tok123"),
          ("devices", .arr [])]) =
      (⟨"u", "p", DEFAULT_URL, .str "tok123"⟩, .ok []) ∧
    NeoHub.login ⟨"u", "p", DEFAULT_URL, .null⟩
        (fun _ _ => .obj [("STATUS", .num 0)]) =
      (⟨"u", "p", DEFAULT_URL, .null⟩, .error (.loginFailed (.num 0))) := by
  constructor
  · exact ((spec_C5_login ⟨"u", "p", DEFAULT_URL, .null⟩
      (fun _ _ => .obj [("STATUS", .num 1), ("TOKEN", .str "tok123"),
        ("devices", .arr [])])
      [("STATUS", .num 1), ("TOKEN", .str "tok123"), ("devices", .arr [])]
      (.num 1) rfl (by decide)).2 (.str "tok123") [] [] (by decide) (by decide)
      (by decide) (by decide)).1
  · exact (spec_C5_login ⟨"u", "p", DEFAULT_URL, .null⟩
      (fun _ _ => .obj [("STATUS", .num 0)]) [("STATUS", .num 0)]
      (.num 0) rfl (by decide)).1 (by decide)

/-- C7: `get_data` accepts both body STATUS 1 and 201 — for any other
status it fails with the protocol error carrying that status, and for the
two success codes it never raises the protocol error. -/
theorem spec_C7_get_data_status (hub : NeoHub) (did : String)
    (send : Transport) (l : List (String × JVal)) (status : JVal)
    (htok : pyFalsy hub.token = false)
    (hresp : send CACHE_VALUE_ENDPOINT
        [("cache_value", .str DEFAULT_CACHE_VALUE_REQUEST),
         ("device_id", .str did), ("token", hub.token)] = .obj l)
    (hstatus : l.lookup "STATUS" = some status) :
    (¬ (pyEqNum status 1 = true ∨ pyEqNum status 201 = true) →
      hub.get_data did send = .error (.getDataFailed status)) ∧
    ((pyEqNum status 1 = true ∨ pyEqNum status 201 = true) →
      ∀ s, hub.get_data did send ≠ .error (.getDataFailed s)) := by
  constructor
  · intro hfail
    unfold NeoHub.get_data
    simp only [htok, Bool.false_eq_true, if_false, hresp]
    simp [getItem, hstatus, hfail]
  · intro hsucc s hcon
    rcases get_data_error_of_truthy hub did send htok _ hcon with
      ⟨k, hk⟩ | ⟨m, hm⟩ | ha | ⟨s2, hs2, hgi, hns⟩
    · simp_all
    · simp_all
    · simp_all
    · rw [hresp] at hgi
      simp [getItem, hstatus] at hgi
      subst hgi
      exact hns hsucc

/-- Witness for C7: STATUS 201 with no CACHE_VALUE succeeds; STATUS 400
fails with the protocol error carrying 400. -/
theorem spec_C7_witness :
    NeoHub.get_data ⟨"u", "p", DEFAULT_URL, .str "tok"⟩ "d1"
        (fun _ _ => .obj [("STATUS", .num 400)]) =
      .error (.getDataFailed (.num 400)) ∧
    ∀ s, NeoHub.get_data ⟨"u", "p", DEFAULT_URL, .str "tok"⟩ "d1"
        (fun _ _ => .obj [("STATUS", .num 201)]) ≠
      .error (.getDataFailed s) := by
  constructor
  · exact (spec_C7_get_data_status ⟨"u", "p", DEFAULT_URL, .str "tok"⟩ "d1"
      (fun _ _ => .obj [("STATUS", .num 400)]) [("STATUS", .num 400)]
      (.num 400) (by decide) rfl (by decide)).1 (by decide)
  · exact (spec_C7_get_data_status ⟨"u", "p", DEFAULT_URL, .str "tok"⟩ "d1"
      (fun _ _ => .obj [("STATUS", .num 201)]) [("STATUS", .num 201)]
      (.num 201) (by decide) rfl (by decide)).2 (by decide)

lemma decodeLiveInfo_filterMap (ds : List JVal) :
    (decodeLiveInfoDevices ds).1 =
      ds.filterMap fun d => (LiveInfoDevice.from_dict d).toOption := by
  induction ds with
  | nil => rfl
  | cons d rest ih =>
    cases hd : LiveInfoDevice.from_dict d <;>
      simp [decodeLiveInfoDevices, hd, ih, Except.toOption]

lemma decodeLiveInfo_count (ds : List JVal) :
    (decodeLiveInfoDevices ds).1.length + (decodeLiveInfoDevices ds).2.length =
      ds.length := by
  induction ds with
  | nil => rfl
  | cons d rest ih =>
    cases hd : LiveInfoDevice.from_dict d <;>
      simp [decodeLiveInfoDevices, hd] <;> omega

/-- C8: on a successful response carrying `CACHE_VALUE.live_info.devices`,
`get_data` returns (in the mutated response) exactly the records whose
decode succeeded, in order, with one reported warning per failed record —
one bad record never aborts the batch. -/
theorem spec_C8_partial_decode (hub : NeoHub) (did : String)
    (send : Transport) (l m n : List (String × JVal)) (ds : List JVal)
    (status : JVal)
    (htok : pyFalsy hub.token = false)
    (hresp : send CACHE_VALUE_ENDPOINT
        [("cache_value", .str DEFAULT_CACHE_VALUE_REQUEST),
         ("device_id", .str did), ("token", hub.token)] = .obj l)
    (hstatus : l.lookup "STATUS" = some status)
    (hsucc : pyEqNum status 1 = true ∨ pyEqNum status 201 = true)
    (hcv : l.lookup "CACHE_VALUE" = some (.obj m))
    (hli : m.lookup "live_info" = some (.obj n))
    (hdevs : n.lookup "devices" = some (.arr ds)) :
    hub.get_data did send =
      .ok ⟨.obj l, some (decodeLiveInfoDevices ds).1,
        (decodeLiveInfoDevices ds).2⟩ ∧
    (decodeLiveInfoDevices ds).1 =
      ds.filterMap (fun d => (LiveInfoDevice.from_dict d).toOption) ∧
    (decodeLiveInfoDevices ds).1.length + (decodeLiveInfoDevices ds).2.length =
      ds.length := by
  refine ⟨?_, decodeLiveInfo_filterMap ds, decodeLiveInfo_count ds⟩
  unfold NeoHub.get_data
  simp only [htok, Bool.false_eq_true, if_false, hresp]
  rcases hdec : decodeLiveInfoDevices ds with ⟨devs, ws⟩
  rcases hsucc with h1 | h201
  · simp [getItem, hstatus, h1, pyIn, any_key_of_lookup _ _ _ hcv,
      any_key_of_lookup _ _ _ hli, hcv, hli, hdevs, hdec]
  · simp [getItem, hstatus, h201, pyIn, any_key_of_lookup _ _ _ hcv,
      any_key_of_lookup _ _ _ hli, hcv, hli, hdevs, hdec]

/-- Witness for C8: a STATUS-201 batch of one well-formed and one malformed
zone record yields exactly one decoded zone and one reported warning. -/
theorem spec_C8_witness :
    ∃ r, NeoHub.get_data ⟨"u", "p", DEFAULT_URL, .str "tok"⟩ "d1"
        (fun _ _ => .obj [("STATUS", .num 201),
          ("CACHE_VALUE", .obj [("live_info", .obj [("devices",
            .arr [.obj [("ZONE_NAME", .str "Lounge")],
              .str "garbage"])])])]) = .ok r ∧
      r.decodedDevices.map List.length = some 1 ∧
      r.warnings =
        ["Warning: Failed to parse device data: AttributeError: object has no attribute items"] := by
  have h := spec_C8_partial_decode ⟨"u", "p", DEFAULT_URL, .str "tok"⟩ "d1"
    (fun _ _ => .obj [("STATUS", .num 201),
      ("CACHE_VALUE", .obj [("live_info", .obj [("devices",
        .arr [.obj [("ZONE_NAME", .str "Lounge")], .str "garbage"])])])])
    [("STATUS", .num 201),
      ("CACHE_VALUE", .obj [("live_info", .obj [("devices",
        .arr [.obj [("ZONE_NAME", .str "Lounge")], .str "garbage"])])])]
    [("live_info", .obj [("devices",
      .arr [.obj [("ZONE_NAME", .str "Lounge")], .str "garbage"])])]
    [("devices", .arr [.obj [("ZONE_NAME", .str "Lounge")], .str "garbage"])]
    [.obj [("ZONE_NAME", .str "Lounge")], .str "garbage"] (.num 201)
    (by decide) rfl (by decide) (by decide) (by decide) (by decide) (by decide)
  exact ⟨_, h.1, by decide, by decide⟩

/-- Counterexample to C9: the command error raised for a failed mutation
carries only the server ERROR message, not the status code — the
responses `STATUS 0` and `STATUS 5` with the same ERROR produce literally
the same error value, so the status cannot be part of it. -/
theorem spec_C9_counterexample :
    NeoHub.set_temperature ⟨"u", "p", DEFAULT_URL, .str "tok"⟩ "d1" "Lounge" 21
        (fun _ _ => .obj [("STATUS", .num 0), ("ERROR", .str "zone locked")]) =
      .error (.setTempFailed (.str "zone locked")) ∧
    NeoHub.set_temperature ⟨"u", "p", DEFAULT_URL, .str "tok"⟩ "d1" "Lounge" 21
        (fun _ _ => .obj [("STATUS", .num 5), ("ERROR", .str "zone locked")]) =
      NeoHub.set_temperature ⟨"u", "p", DEFAULT_URL, .str "tok"⟩ "d1" "Lounge" 21
        (fun _ _ => .obj [("STATUS", .num 0),
          ("ERROR", .str "zone locked")]) := by
  decide

/-- C9 (amended): each mutating operation and the history fetch succeeds
exactly on body STATUS 1; on any other status it fails with its command
error carrying the ERROR value of the body verbatim when present, and the fixed
text "Unknown error" otherwise — the status code is not part of the error. -/
theorem spec_C9_command_errors :
    (∀ (hub : NeoHub) (did zn : String) (t : Rat) (send : Transport)
        (l : List (String × JVal)) (status : JVal),
      pyFalsy hub.token = false →
      send "hm_set_temp"
          [("device_id", .str did), ("token", hub.token), ("zone", .str zn),
           ("temperature", .num t)] = .obj l →
      l.lookup "STATUS" = some status →
      (pyEqNum status 1 = true →
        hub.set_temperature did zn t send = .ok (.obj l)) ∧
      (pyEqNum status 1 = false →
        hub.set_temperature did zn t send = .error (.setTempFailed
          ((l.lookup "ERROR").getD (.str "Unknown error"))))) ∧
    (∀ (hub : NeoHub) (did zn mode : String) (send : Transport)
        (l : List (String × JVal)) (status : JVal),
      pyFalsy hub.token = false →
      send "hm_set_mode"
          [("device_id", .str did), ("token", hub.token), ("zone", .str zn),
           ("mode", .str mode.toUpper)] = .obj l →
      l.lookup "STATUS" = some status →
      (pyEqNum status 1 = true →
        hub.set_mode did zn mode send = .ok (.obj l)) ∧
      (pyEqNum status 1 = false →
        hub.set_mode did zn mode send = .error (.setModeFailed
          ((l.lookup "ERROR").getD (.str "Unknown error"))))) ∧
    (∀ (hub : NeoHub) (did : String) (enabled : Bool) (send : Transport)
        (l : List (String × JVal)) (status : JVal),
      pyFalsy hub.token = false →
      send "hm_set_away"
          [("device_id", .str did), ("token", hub.token),
           ("away", .str (if enabled then "1" else "0"))] = .obj l →
      l.lookup "STATUS" = some status →
      (pyEqNum status 1 = true →
        hub.set_away_mode did enabled send = .ok (.obj l)) ∧
      (pyEqNum status 1 = false →
        hub.set_away_mode did enabled send = .error (.setAwayFailed
          ((l.lookup "ERROR").getD (.str "Unknown error"))))) ∧
    (∀ (hub : NeoHub) (did zn : String) (send : Transport)
        (l : List (String × JVal)) (status : JVal),
      pyFalsy hub.token = false →
      send "hm_get_history"
          [("device_id", .str did), ("token", hub.token),
           ("zone", .str zn)] = .obj l →
      l.lookup "STATUS" = some status →
      (pyEqNum status 1 = true →
        hub.get_history did zn send = .ok (.obj l)) ∧
      (pyEqNum status 1 = false →
        hub.get_history did zn send = .error (.getHistoryFailed
          ((l.lookup "ERROR").getD (.str "Unknown error"))))) := by
  refine ⟨?_, ?_, ?_, ?_⟩
  · intro hub did zn t send l status htok hresp hstatus
    constructor
    · intro h1
      unfold NeoHub.set_temperature
      simp only [htok, Bool.false_eq_true, if_false, hresp]
      simp [getItem, hstatus, h1]
    · intro h0
      unfold NeoHub.set_temperature
      simp only [htok, Bool.false_eq_true, if_false, hresp]
      simp [getItem, hstatus, h0, pyDictGet]
  · intro hub did zn mode send l status htok hresp hstatus
    constructor
    · intro h1
      unfold NeoHub.set_mode
      simp only [htok, Bool.false_eq_true, if_false, hresp]
      simp [getItem, hstatus, h1]
    · intro h0
      unfold NeoHub.set_mode
      simp only [htok, Bool.false_eq_true, if_false, hresp]
      simp [getItem, hstatus, h0, pyDictGet]
  · intro hub did enabled send l status htok hresp hstatus
    constructor
    · intro h1
      unfold NeoHub.set_away_mode
      simp only [htok, Bool.false_eq_true, if_false, hresp]
      simp [getItem, hstatus, h1]
    · intro h0
      unfold NeoHub.set_away_mode
      simp only [htok, Bool.false_eq_true, if_false, hresp]
      simp [getItem, hstatus, h0, pyDictGet]
  · intro hub did zn send l status htok hresp hstatus
    constructor
    · intro h1
      unfold NeoHub.get_history
      simp only [htok, Bool.false_eq_true, if_false, hresp]
      simp [getItem, hstatus, h1]
    · intro h0
      unfold NeoHub.get_history
      simp only [htok, Bool.false_eq_true, if_false, hresp]
      simp [getItem, hstatus, h0, pyDictGet]

/-- Witness for C9: a STATUS-1 body succeeds; a STATUS-0 body with
`ERROR: "zone locked"` fails with that very message. -/
theorem spec_C9_witness :
    NeoHub.set_temperature ⟨"u", "p", DEFAULT_URL, .str "tok"⟩ "d1" "Lounge" 21
        (fun _ _ => .obj [("STATUS", .num 1)]) = .ok (.obj [("STATUS", .num 1)]) ∧
    NeoHub.set_mode ⟨"u", "p", DEFAULT_URL, .str "tok"⟩ "d1" "Lounge" "heat"
        (fun _ _ => .obj [("STATUS", .num 0), ("ERROR", .str "zone locked")]) =
      .error (.setModeFailed (.str "zone locked")) := by
  constructor
  · exact (spec_C9_command_errors.1 ⟨"u", "p", DEFAULT_URL, .str "tok"⟩ "d1"
      "Lounge" 21 (fun _ _ => .obj [("STATUS", .num 1)])
      [("STATUS", .num 1)] (.num 1) (by decide) rfl (by decide)).1 (by decide)
  · have h := (spec_C9_command_errors.2.1 ⟨"u", "p", DEFAULT_URL, .str "tok"⟩
      "d1" "Lounge" "heat"
      (fun _ _ => .obj [("STATUS", .num 0), ("ERROR", .str "zone locked")])
      [("STATUS", .num 0), ("ERROR", .str "zone locked")] (.num 0)
      (by decide) rfl (by decide)).2 (by decide)
    exact h.trans (by decide)
